import Mathlib

/-!
Shallow embedding of the combat/progression core of the `verta` wave-survival
game (TypeScript).  Numbers are modelled as rationals (`ℚ`); the decimal
constants of the source (`0.3`, `0.8`, `1.5`, …) are exact rationals here.
Object identity of JS objects is modelled by an explicit `id : ℕ` field;
irrational operations (vector `normalize`, which involves a square root) and
`Math.random` are abstracted as explicit input parameters, universally
quantified in the theorems.  Purely visual state (meshes, materials, opacity
of the scene objects, HUD calls) carries no gameplay information and is not
modelled.
-/

namespace Verta

/-- 3-axis position vector (THREE.Vector3 restricted to its coordinates). -/
structure Vec3 where
  x : ℚ
  y : ℚ
  z : ℚ
  deriving DecidableEq, Repr

/-- Squared 3-D Euclidean distance; `a.distanceTo b` in THREE is its square
root.  Comparisons `distanceTo ≤ r` are encoded on squares (see
`withinRadius`). -/
def distSq (a b : Vec3) : ℚ :=
  (a.x - b.x) ^ 2 + (a.y - b.y) ^ 2 + (a.z - b.z) ^ 2

/-- Squared ground-plane (x/z) distance, ignoring the height axis.  Used only
to state the spec's "ground-plane distance" reading; the code itself uses
the full 3-D `distanceTo`. -/
def groundDistSq (a b : Vec3) : ℚ :=
  (a.x - b.x) ^ 2 + (a.z - b.z) ^ 2

/-- `distanceTo a b ≤ r`, encoded without square roots: a nonnegative square
root is `≤ r` iff `r ≥ 0` and the square is `≤ r ^ 2`. -/
def withinRadius (a b : Vec3) (r : ℚ) : Bool :=
  decide (0 ≤ r) && decide (distSq a b ≤ r ^ 2)

/-! ## PlayerStats (src/entities/PlayerStats.ts) -/

/-- Player stats that can be upgraded on level-up. -/
structure PlayerStats where
  damageMultiplier : ℚ
  attackRate : ℚ
  maxHealth : ℚ
  currentHealth : ℚ
  moveSpeed : ℚ
  level : ℕ
  deriving DecidableEq, Repr

/-- Creates default starting stats. -/
def createDefaultStats : PlayerStats :=
  { damageMultiplier := 1
    attackRate := 1
    maxHealth := 100
    currentHealth := 100
    moveSpeed := 1
    level := 1 }

/-- Calculate XP required for a given level:
`Math.floor(100 * Math.pow(1.5, level - 1))`. -/
def xpForLevel (level : ℕ) : ℚ :=
  ((⌊(100 : ℚ) * (3 / 2) ^ (level - 1)⌋ : ℤ) : ℚ)

/-! ## ProgressionSystem (src/systems/ProgressionSystem.ts)

HUD calls (`showLevelUp`, `flashDamage`, `update`) are display-only side
effects and carry no gameplay state; they are omitted. -/

/-- XP tracking state owned by the ProgressionSystem. -/
structure ProgressionState where
  currentXP : ℚ
  xpToNextLevel : ℚ
  currentWave : ℕ
  deriving DecidableEq, Repr

/-- Result reported on a level-up. -/
structure LevelUpResult where
  newLevel : ℕ
  damageInc : ℚ
  attackRateInc : ℚ
  speedInc : ℚ
  deriving DecidableEq, Repr

namespace ProgressionSystem

/-- Base XP reward per enemy kill. -/
def baseXPPerKill : ℚ := 25

/-- Damage increase per level (+10%). -/
def damagePerLevel : ℚ := 1 / 10

/-- Attack-rate increase per level (+5%). -/
def attackRatePerLevel : ℚ := 1 / 20

/-- Move-speed increase per level (+3%). -/
def speedPerLevel : ℚ := 3 / 100

/-- Constructor state: `currentXP = 0`, `xpToNextLevel = xpForLevel(initialLevel)`,
`currentWave = 1`. -/
def init (initialLevel : ℕ) : ProgressionState :=
  { currentXP := 0, xpToNextLevel := xpForLevel initialLevel, currentWave := 1 }

/-- Process a level up: carry over excess XP, increment level, apply the fixed
stat increases, heal 20% of max health capped at max, recompute
`xpToNextLevel` from the new level. -/
def levelUp (p : ProgressionState) (stats : PlayerStats) :
    ProgressionState × PlayerStats × LevelUpResult :=
  let carriedXP := p.currentXP - p.xpToNextLevel
  let newLevel := stats.level + 1
  let stats1 : PlayerStats :=
    { stats with
      level := newLevel
      damageMultiplier := stats.damageMultiplier + damagePerLevel
      attackRate := stats.attackRate + attackRatePerLevel
      moveSpeed := stats.moveSpeed + speedPerLevel }
  let healAmount := stats1.maxHealth * (2 / 10)
  let stats2 : PlayerStats :=
    { stats1 with currentHealth := min stats1.maxHealth (stats1.currentHealth + healAmount) }
  ({ p with currentXP := carriedXP, xpToNextLevel := xpForLevel newLevel },
   stats2,
   { newLevel := newLevel
     damageInc := damagePerLevel
     attackRateInc := attackRatePerLevel
     speedInc := speedPerLevel })

/-- Add XP and check for level up (a single check: the excess is not
re-checked against the next threshold in the same call). -/
def addXP (p : ProgressionState) (stats : PlayerStats) (amount : ℚ) :
    ProgressionState × PlayerStats × Option LevelUpResult :=
  let p1 : ProgressionState := { p with currentXP := p.currentXP + amount }
  if p1.xpToNextLevel ≤ p1.currentXP then
    let r := levelUp p1 stats
    (r.1, r.2.1, some r.2.2)
  else
    (p1, stats, none)

/-- Award XP for killing an enemy:
`xpGained = Math.floor(baseXPPerKill * (1 + (enemyLevel - 1) * 0.5))`. -/
def awardKillXP (p : ProgressionState) (stats : PlayerStats) (enemyLevel : ℕ) :
    ProgressionState × PlayerStats × Option LevelUpResult :=
  let xpGained : ℚ :=
    ((⌊baseXPPerKill * (1 + ((enemyLevel : ℚ) - 1) * (1 / 2))⌋ : ℤ) : ℚ)
  addXP p stats xpGained

/-- Apply damage to the player; clamps health at zero and reports death. -/
def applyDamage (stats : PlayerStats) (damage : ℚ) : PlayerStats × Bool :=
  let h := stats.currentHealth - damage
  if h ≤ 0 then ({ stats with currentHealth := 0 }, true)
  else ({ stats with currentHealth := h }, false)

/-- Modelled from the spec: `ProgressionSystem.reset` is invoked by
`Game.restart` but its definition is missing from the provided
ProgressionSystem source; per the spec a restart resets the XP counters and
wave counter (`currentXP` to 0, `xpToNextLevel` to the level-1 requirement,
wave to 1). -/
def reset (_p : ProgressionState) : ProgressionState :=
  { currentXP := 0, xpToNextLevel := xpForLevel 1, currentWave := 1 }

end ProgressionSystem

/-! ## Arena bounds and entities (src/levels/Arena.ts, src/entities/Enemy.ts,
src/entities/Player.ts) -/

/-- Arena bounds rectangle, immutable per arena. -/
structure ArenaBounds where
  minX : ℚ
  maxX : ℚ
  minZ : ℚ
  maxZ : ℚ
  deriving DecidableEq, Repr

/-- `position.x ∈ [minX, maxX] ∧ position.z ∈ [minZ, maxZ]`. -/
def inBounds (b : ArenaBounds) (p : Vec3) : Prop :=
  b.minX ≤ p.x ∧ p.x ≤ b.maxX ∧ b.minZ ≤ p.z ∧ p.z ≤ b.maxZ

instance (b : ArenaBounds) (p : Vec3) : Decidable (inBounds b p) := by
  unfold inBounds; infer_instance

/-- Clamp the x and z coordinates to the bounds (`Enemy.clampToBounds` and the
identical inline clamp in `Player.update`); the height axis is untouched. -/
def clampToBounds (b : ArenaBounds) (p : Vec3) : Vec3 :=
  { x := max b.minX (min b.maxX p.x)
    y := p.y
    z := max b.minZ (min b.maxZ p.z) }

/-- Enemy archetypes. -/
inductive EnemyType where
  | chaser
  | wanderer
  deriving DecidableEq, Repr

/-- Enemy gameplay state.  JS object identity is modelled by `id`; the live
enemy array never holds two distinct objects, so distinct entries have
distinct ids.  Mesh/material fields are visual only and not modelled. -/
structure Enemy where
  id : ℕ
  pos : Vec3
  maxHealth : ℚ
  currentHealth : ℚ
  isAlive : Bool
  deriving DecidableEq, Repr

/-- Enemy max health by archetype and wave (`Enemy` constructor): chasers
`20 + (wave-1)*15`, wanderers `50 + (wave-1)*25`. -/
def enemyMaxHealth (t : EnemyType) (wave : ℕ) : ℚ :=
  match t with
  | .chaser => 20 + ((wave : ℚ) - 1) * 15
  | .wanderer => 50 + ((wave : ℚ) - 1) * 25

/-- The `Enemy` constructor: full health, alive, position with the height
axis fixed at 0.6 (`mesh.position.y = 0.6`). -/
def mkEnemy (i : ℕ) (t : EnemyType) (p : Vec3) (wave : ℕ) : Enemy :=
  { id := i
    pos := { x := p.x, y := 3 / 5, z := p.z }
    maxHealth := enemyMaxHealth t wave
    currentHealth := enemyMaxHealth t wave
    isAlive := true }

/-- `Enemy.update`: dead enemies return immediately; otherwise the position
advances by the movement vector and is clamped to the arena bounds.  `move`
stands for `direction * speed * deltaTime`, where `direction` is the
normalized chase vector (chaser) or the wander direction (wanderer); the
irrational `normalize` and `Math.random` re-rolls are abstracted into this
input, universally quantified in the theorems.  Both variants end with
`clampToBounds`. -/
def Enemy.update (e : Enemy) (move : Vec3) (b : ArenaBounds) : Enemy :=
  if e.isAlive = false then e
  else
    { e with
      pos := clampToBounds b
        { x := e.pos.x + move.x, y := e.pos.y + move.y, z := e.pos.z + move.z } }

/-- `Player.update` movement: when the input is nonzero the position advances
by the movement vector and, when bounds are supplied, its x and z are
clamped; when the input is zero the position is unchanged.  `move` stands
for the normalized screen-relative movement scaled by speed and deltaTime
(the irrational `normalize` abstracted as an input). -/
def Player.update (pos : Vec3) (input : ℚ × ℚ) (move : Vec3) (b : Option ArenaBounds) : Vec3 :=
  if input.1 ≠ 0 ∨ input.2 ≠ 0 then
    let p1 : Vec3 := { x := pos.x + move.x, y := pos.y + move.y, z := pos.z + move.z }
    match b with
    | some bounds => clampToBounds bounds p1
    | none => p1
  else pos

/-! ## AreaPulse weapon (src/combat/AreaPulse.ts)

The `pulseEffect` mesh, its scale and its opacity are visual only; the fade
opacity `max 0 (0.8 - pulseAnimation * 2)` is recomputed where the source
reads it.  The mesh is always present after construction, so the source
guard `isPulsing && pulseEffect` reduces to `isPulsing`. -/

/-- Weapon state of the area-pulse weapon. -/
structure AreaPulse where
  baseDamage : ℚ
  baseCooldown : ℚ
  currentCooldown : ℚ
  pulseAnimation : ℚ
  isPulsing : Bool
  previousPulseRadius : ℚ
  currentPulseRadius : ℚ
  pulseOrigin : Vec3
  pendingDamage : ℚ
  deriving DecidableEq, Repr

/-- Result of an attack attempt. -/
structure AttackResult where
  origin : Vec3
  radius : ℚ
  damage : ℚ
  success : Bool
  deriving DecidableEq, Repr

/-- Per-frame snapshot of the expanding pulse for progressive hit detection
(src/combat/CombatSystem.ts `PulseState`). -/
structure PulseState where
  active : Bool
  origin : Vec3
  previousRadius : ℚ
  currentRadius : ℚ
  damage : ℚ
  deriving DecidableEq, Repr

namespace AreaPulse

/-- `private readonly baseRadius = 3`. -/
def baseRadius : ℚ := 3

/-- The `AreaPulse` constructor. -/
def init (baseDamage baseCooldown : ℚ) : AreaPulse :=
  { baseDamage := baseDamage
    baseCooldown := baseCooldown
    currentCooldown := 0
    pulseAnimation := 0
    isPulsing := false
    previousPulseRadius := 0
    currentPulseRadius := 0
    pulseOrigin := { x := 0, y := 0, z := 0 }
    pendingDamage := 0 }

/-- True iff `currentCooldown <= 0`. -/
def canAttack (w : AreaPulse) : Bool :=
  decide (w.currentCooldown ≤ 0)

/-- Higher attack rate gives a lower cooldown. -/
def getEffectiveCooldown (w : AreaPulse) (attackRateMultiplier : ℚ) : ℚ :=
  w.baseCooldown / attackRateMultiplier

/-- `attack(origin, damageMultiplier)`: a no-op result when not ready; on
success resets the cooldown to `baseCooldown`, starts a new pulse with both
radii zero and `pendingDamage = baseDamage * damageMultiplier`.  Returns the
result and the next weapon state. -/
def attack (w : AreaPulse) (origin : Vec3) (damageMultiplier : ℚ) :
    AttackResult × AreaPulse :=
  if canAttack w = false then
    ({ origin := origin, radius := 0, damage := 0, success := false }, w)
  else
    ({ origin := origin, radius := 0, damage := w.baseDamage * damageMultiplier,
       success := true },
     { w with
       currentCooldown := w.baseCooldown
       isPulsing := true
       pulseAnimation := 0
       previousPulseRadius := 0
       currentPulseRadius := 0
       pulseOrigin := origin
       pendingDamage := w.baseDamage * damageMultiplier })

/-- Read-only pulse snapshot for the CombatSystem. -/
def getPulseState (w : AreaPulse) : PulseState :=
  { active := w.isPulsing
    origin := w.pulseOrigin
    previousRadius := w.previousPulseRadius
    currentRadius := w.currentPulseRadius
    damage := w.pendingDamage }

/-- `update(deltaTime, attackRateMultiplier)`: decrements the cooldown when
positive; while pulsing, advances the animation clock by `deltaTime * 3`,
stores the prior radius in `previousPulseRadius`, derives
`currentPulseRadius = min(pulseAnimation / 0.3, 1) * baseRadius`, and when
the fade opacity `max 0 (0.8 - pulseAnimation * 2)` reaches zero deactivates
the pulse, zeroing `pendingDamage` and both radii.  The
`attackRateMultiplier` parameter is accepted but unused, exactly as in the
source. -/
def update (w : AreaPulse) (deltaTime : ℚ) (attackRateMultiplier : ℚ) : AreaPulse :=
  let _ := attackRateMultiplier
  let w1 :=
    if 0 < w.currentCooldown then
      { w with currentCooldown := w.currentCooldown - deltaTime }
    else w
  if w1.isPulsing = true then
    let anim := w1.pulseAnimation + deltaTime * 3
    let prev := w1.currentPulseRadius
    let progress := min (anim / (3 / 10)) 1
    let curr := progress * baseRadius
    let opacity := max 0 (8 / 10 - anim * 2)
    if opacity ≤ 0 then
      { w1 with
        pulseAnimation := anim
        isPulsing := false
        pendingDamage := 0
        previousPulseRadius := 0
        currentPulseRadius := 0 }
    else
      { w1 with
        pulseAnimation := anim
        previousPulseRadius := prev
        currentPulseRadius := curr }
  else w1

end AreaPulse

/-! ## CombatSystem (src/combat/CombatSystem.ts)

Mesh flashing and the death animation (`flashEnemy`, `startDeathAnimation`,
`update`) mutate visual state only; the gameplay-relevant effects of a hit
are the damage application and the emitted events. -/

/-- Ephemeral per-hit event; `enemyId` models the `enemy` object reference. -/
structure DamageEvent where
  enemyId : ℕ
  damage : ℚ
  killed : Bool
  deriving DecidableEq, Repr

namespace CombatSystem

/-- Decrement enemy health; clamp at zero, set `isAlive = false` and report
death when health reaches zero. -/
def applyDamage (e : Enemy) (damage : ℚ) : Enemy × Bool :=
  let h := e.currentHealth - damage
  if h ≤ 0 then ({ e with currentHealth := 0, isAlive := false }, true)
  else ({ e with currentHealth := h }, false)

/-- Result of one `processPulseHits` call: the emitted events, the enemy
array after in-place damage, and the per-pulse hit-dedup set
(`hitByCurrentPulse`, a set of object identities, here ids). -/
structure PulseStepResult where
  events : List DamageEvent
  enemies : List Enemy
  hitSet : List ℕ
  deriving DecidableEq, Repr

/-- The enemy loop of `processPulseHits`: skip dead enemies and enemies
already recorded in the dedup set; otherwise, when
`position.distanceTo(origin) <= currentRadius`, record the enemy in the set,
apply the damage and emit an event. -/
def processPulseGo (origin : Vec3) (radius damage : ℚ) :
    List Enemy → List ℕ → PulseStepResult
  | [], hit => { events := [], enemies := [], hitSet := hit }
  | e :: rest, hit =>
    if e.isAlive = false then
      let r := processPulseGo origin radius damage rest hit
      { r with enemies := e :: r.enemies }
    else if e.id ∈ hit then
      let r := processPulseGo origin radius damage rest hit
      { r with enemies := e :: r.enemies }
    else if withinRadius e.pos origin radius = true then
      let ek := applyDamage e damage
      let r := processPulseGo origin radius damage rest (e.id :: hit)
      { events := { enemyId := e.id, damage := damage, killed := ek.2 } :: r.events
        enemies := ek.1 :: r.enemies
        hitSet := r.hitSet }
    else
      let r := processPulseGo origin radius damage rest hit
      { r with enemies := e :: r.enemies }

/-- `processPulseHits(pulseState, enemies)`: when the pulse is inactive,
clear the dedup set and return no events; otherwise run the enemy loop. -/
def processPulseHits (ps : PulseState) (enemies : List Enemy) (hit : List ℕ) :
    PulseStepResult :=
  if ps.active = false then { events := [], enemies := enemies, hitSet := [] }
  else processPulseGo ps.origin ps.currentRadius ps.damage enemies hit

/-- A sequence of `processPulseHits` calls over consecutive frames, threading
the mutated enemy array and the dedup set, concatenating the events. -/
def runPulse : List PulseState → List Enemy → List ℕ → PulseStepResult
  | [], es, hit => { events := [], enemies := es, hitSet := hit }
  | ps :: rest, es, hit =>
    let r := processPulseHits ps es hit
    let r2 := runPulse rest r.enemies r.hitSet
    { events := r.events ++ r2.events, enemies := r2.enemies, hitSet := r2.hitSet }

/-- Number of damage events reported for a given enemy. -/
def countHits (i : ℕ) (evs : List DamageEvent) : ℕ :=
  (evs.filter fun ev => ev.enemyId == i).length

end CombatSystem

/-! ## Game orchestrator (src/Game.ts) -/

/-- The per-run game state owned by the orchestrator.  The renderer, scene,
camera, clock and HUD objects are display-only collaborators. -/
structure GameState where
  playerStats : PlayerStats
  currentWave : ℕ
  progression : ProgressionState
  playerPos : Vec3
  enemies : List Enemy
  weapon : AreaPulse
  isGameOver : Bool
  deriving DecidableEq, Repr

namespace Game

/-- `Game.restart`: replace the player stats wholesale, reset the wave
counter and the progression counters, reset the player position, clear the
live enemy array and spawn a fresh wave, clear the game-over flag.  The
random spawn positions of the fresh wave are abstracted by the `newWave`
parameter; the weapon object is not touched by `restart`, as in the
source.  Executed as one pure step between frames: the loop only ever
observes the resulting state. -/
def restart (g : GameState) (newWave : List Enemy) : GameState :=
  { g with
    playerStats := createDefaultStats
    currentWave := 1
    progression := ProgressionSystem.reset g.progression
    playerPos := { x := 0, y := 8 / 10, z := 0 }
    enemies := newWave
    isGameOver := false }

end Game

/-! ## Invariants used by the theorems -/

/-- The radius the pulse animation clock derives:
`min(pulseAnimation / 0.3, 1) * baseRadius`. -/
def radiusOfAnim (a : ℚ) : ℚ :=
  min (a / (3 / 10)) 1 * AreaPulse.baseRadius

/-- Reachability invariant of the weapon along a pulse lifecycle: the
animation clock is nonnegative and, while pulsing, the current radius is the
one derived from the clock.  Established by a successful `attack` and
preserved by `update`. -/
def pulseInv (w : AreaPulse) : Prop :=
  0 ≤ w.pulseAnimation ∧
    (w.isPulsing = true → w.currentPulseRadius = radiusOfAnim w.pulseAnimation)

/-- Step 1 of the kill-to-levelup scenario (spec item 7): a wave-1 kill
award from the default stats and the level-1 progression state. -/
def killAward1 : ProgressionState × PlayerStats × Option LevelUpResult :=
  ProgressionSystem.awardKillXP (ProgressionSystem.init 1) createDefaultStats 1

/-- Step 2: the next wave-1 kill award, fed the previous step's state as the
game loop does. -/
def killAward2 : ProgressionState × PlayerStats × Option LevelUpResult :=
  ProgressionSystem.awardKillXP killAward1.1 killAward1.2.1 1

/-- Step 3 of the kill award chain. -/
def killAward3 : ProgressionState × PlayerStats × Option LevelUpResult :=
  ProgressionSystem.awardKillXP killAward2.1 killAward2.2.1 1

/-- Step 4 of the kill award chain: the one that crosses the threshold. -/
def killAward4 : ProgressionState × PlayerStats × Option LevelUpResult :=
  ProgressionSystem.awardKillXP killAward3.1 killAward3.2.1 1

/-! ## Helper lemmas -/

theorem countHits_nil (i : ℕ) : CombatSystem.countHits i [] = 0 := rfl

theorem countHits_cons (i n : ℕ) (d : ℚ) (k : Bool) (evs : List DamageEvent) :
    CombatSystem.countHits i ({ enemyId := n, damage := d, killed := k } :: evs) =
      (if n = i then 1 else 0) + CombatSystem.countHits i evs := by
  simp only [CombatSystem.countHits, List.filter_cons]
  by_cases h : n = i
  · simp [h, Nat.add_comm]
  · simp [h]

theorem countHits_append (i : ℕ) (a b : List DamageEvent) :
    CombatSystem.countHits i (a ++ b) =
      CombatSystem.countHits i a + CombatSystem.countHits i b := by
  simp [CombatSystem.countHits]

theorem processPulseGo_hitSet_mono (origin : Vec3) (radius damage : ℚ) :
    ∀ (es : List Enemy) (hit : List ℕ),
      hit ⊆ (CombatSystem.processPulseGo origin radius damage es hit).hitSet := by
  intro es
  induction es with
  | nil => intro hit; simp [CombatSystem.processPulseGo]
  | cons e rest ih =>
    intro hit
    simp only [CombatSystem.processPulseGo]
    by_cases h1 : e.isAlive = false
    · rw [if_pos h1]; exact ih hit
    · rw [if_neg h1]
      by_cases h2 : e.id ∈ hit
      · rw [if_pos h2]; exact ih hit
      · rw [if_neg h2]
        by_cases h3 : withinRadius e.pos origin radius = true
        · rw [if_pos h3]
          exact (List.subset_cons_self _ _).trans (ih (e.id :: hit))
        · rw [if_neg h3]; exact ih hit

theorem processPulseGo_countHits_le (origin : Vec3) (radius damage : ℚ) (i : ℕ) :
    ∀ (es : List Enemy) (hit : List ℕ),
      CombatSystem.countHits i (CombatSystem.processPulseGo origin radius damage es hit).events ≤
        if i ∈ hit then 0 else 1 := by
  intro es
  induction es with
  | nil =>
    intro hit
    simp [CombatSystem.processPulseGo, countHits_nil]
  | cons e rest ih =>
    intro hit
    simp only [CombatSystem.processPulseGo]
    by_cases h1 : e.isAlive = false
    · rw [if_pos h1]; exact ih hit
    · rw [if_neg h1]
      by_cases h2 : e.id ∈ hit
      · rw [if_pos h2]; exact ih hit
      · rw [if_neg h2]
        by_cases h3 : withinRadius e.pos origin radius = true
        · rw [if_pos h3]
          have hrec := ih (e.id :: hit)
          by_cases hi : i = e.id
          · subst hi
            rw [if_neg h2, countHits_cons, if_pos rfl]
            rw [if_pos (List.mem_cons_self _ _)] at hrec
            omega
          · rw [countHits_cons, if_neg (Ne.symm hi)]
            by_cases hh : i ∈ hit
            · rw [if_pos (List.mem_cons_of_mem _ hh)] at hrec
              rw [if_pos hh]
              omega
            · have hni : i ∉ e.id :: hit := by
                intro hc
                rcases List.mem_cons.mp hc with h | h
                · exact hi h
                · exact hh h
              rw [if_neg hni] at hrec
              rw [if_neg hh]
              omega
        · rw [if_neg h3]; exact ih hit

theorem processPulseGo_event_mem (origin : Vec3) (radius damage : ℚ) (i : ℕ) :
    ∀ (es : List Enemy) (hit : List ℕ),
      1 ≤ CombatSystem.countHits i
            (CombatSystem.processPulseGo origin radius damage es hit).events →
      i ∈ (CombatSystem.processPulseGo origin radius damage es hit).hitSet := by
  intro es
  induction es with
  | nil =>
    intro hit h
    simp [CombatSystem.processPulseGo, countHits_nil] at h
  | cons e rest ih =>
    intro hit
    simp only [CombatSystem.processPulseGo]
    by_cases h1 : e.isAlive = false
    · rw [if_pos h1]; exact ih hit
    · rw [if_neg h1]
      by_cases h2 : e.id ∈ hit
      · rw [if_pos h2]; exact ih hit
      · rw [if_neg h2]
        by_cases h3 : withinRadius e.pos origin radius = true
        · rw [if_pos h3]
          intro h
          by_cases hi : i = e.id
          · exact processPulseGo_hitSet_mono origin radius damage rest (e.id :: hit)
              (by rw [hi]; exact List.mem_cons_self _ _)
          · rw [countHits_cons, if_neg (Ne.symm hi), Nat.zero_add] at h
            exact ih (e.id :: hit) h
        · rw [if_neg h3]; exact ih hit

theorem runPulse_countHits_le (i : ℕ) :
    ∀ (pss : List PulseState) (es : List Enemy) (hit : List ℕ),
      (∀ ps ∈ pss, ps.active = true) →
      CombatSystem.countHits i (CombatSystem.runPulse pss es hit).events ≤
        if i ∈ hit then 0 else 1 := by
  intro pss
  induction pss with
  | nil =>
    intro es hit _
    simp [CombatSystem.runPulse, countHits_nil]
  | cons ps rest ih =>
    intro es hit hact
    have hps : ps.active = true := hact ps (List.mem_cons_self _ _)
    have hrest : ∀ q ∈ rest, q.active = true := fun q hq =>
      hact q (List.mem_cons_of_mem _ hq)
    have hfirst : CombatSystem.processPulseHits ps es hit =
        CombatSystem.processPulseGo ps.origin ps.currentRadius ps.damage es hit := by
      simp [CombatSystem.processPulseHits, hps]
    simp only [CombatSystem.runPulse, countHits_append, hfirst]
    have h1 := processPulseGo_countHits_le ps.origin ps.currentRadius ps.damage i es hit
    have h2 := ih (CombatSystem.processPulseGo ps.origin ps.currentRadius ps.damage es hit).enemies
      (CombatSystem.processPulseGo ps.origin ps.currentRadius ps.damage es hit).hitSet hrest
    by_cases hh : i ∈ hit
    · have hmem : i ∈ (CombatSystem.processPulseGo ps.origin ps.currentRadius
          ps.damage es hit).hitSet :=
        processPulseGo_hitSet_mono ps.origin ps.currentRadius ps.damage es hit hh
      rw [if_pos hh] at h1 ⊢
      rw [if_pos hmem] at h2
      omega
    · rw [if_neg hh] at h1 ⊢
      by_cases hm : i ∈ (CombatSystem.processPulseGo ps.origin ps.currentRadius
          ps.damage es hit).hitSet
      · rw [if_pos hm] at h2
        omega
      · have h0 : CombatSystem.countHits i (CombatSystem.processPulseGo ps.origin
            ps.currentRadius ps.damage es hit).events = 0 := by
          by_contra hc
          exact hm (processPulseGo_event_mem ps.origin ps.currentRadius ps.damage i es hit
            (Nat.one_le_iff_ne_zero.mpr hc))
        rw [h0]
        split at h2 <;> omega

theorem withinRadius_iff (a b : Vec3) (r : ℚ) :
    withinRadius a b r = true ↔ 0 ≤ r ∧ distSq a b ≤ r ^ 2 := by
  simp [withinRadius]

theorem xpForLevel_le_succ (l : ℕ) : xpForLevel l ≤ xpForLevel (l + 1) := by
  unfold xpForLevel
  rw [Nat.add_sub_cancel]
  have hpow : ((3 : ℚ) / 2) ^ (l - 1) ≤ ((3 : ℚ) / 2) ^ l :=
    pow_le_pow_right₀ (by norm_num) (Nat.sub_le l 1)
  have : (100 : ℚ) * (3 / 2) ^ (l - 1) ≤ 100 * (3 / 2) ^ l := by linarith
  exact_mod_cast Int.floor_le_floor this

theorem clampToBounds_inBounds (b : ArenaBounds) (p : Vec3)
    (hx : b.minX ≤ b.maxX) (hz : b.minZ ≤ b.maxZ) :
    inBounds b (clampToBounds b p) := by
  refine ⟨le_max_left _ _, max_le hx (min_le_left _ _),
          le_max_left _ _, max_le hz (min_le_left _ _)⟩

theorem radiusOfAnim_nonneg (a : ℚ) (h : 0 ≤ a) : 0 ≤ radiusOfAnim a := by
  unfold radiusOfAnim AreaPulse.baseRadius
  have h1 : (0 : ℚ) ≤ min (a / (3 / 10)) 1 := by
    apply le_min
    · positivity
    · norm_num
  linarith

theorem radiusOfAnim_mono (a b : ℚ) (h : a ≤ b) : radiusOfAnim a ≤ radiusOfAnim b := by
  unfold radiusOfAnim AreaPulse.baseRadius
  have h1 : a / (3 / 10) ≤ b / (3 / 10) :=
    (div_le_div_iff_of_pos_right (by norm_num)).mpr h
  have h2 : min (a / (3 / 10)) 1 ≤ min (b / (3 / 10)) 1 := min_le_min h1 le_rfl
  linarith

theorem update_not_pulsing (w : AreaPulse) (dt rate : ℚ) (h : w.isPulsing = false) :
    (AreaPulse.update w dt rate).isPulsing = false ∧
    (AreaPulse.update w dt rate).pulseAnimation = w.pulseAnimation ∧
    (AreaPulse.update w dt rate).currentPulseRadius = w.currentPulseRadius ∧
    (AreaPulse.update w dt rate).previousPulseRadius = w.previousPulseRadius := by
  unfold AreaPulse.update
  by_cases hcc : 0 < w.currentCooldown <;> simp [hcc, h]

theorem update_pulsing_fade (w : AreaPulse) (dt rate : ℚ) (h : w.isPulsing = true)
    (hf : (8 : ℚ) / 10 - (w.pulseAnimation + dt * 3) * 2 ≤ 0) :
    (AreaPulse.update w dt rate).isPulsing = false ∧
    (AreaPulse.update w dt rate).pulseAnimation = w.pulseAnimation + dt * 3 ∧
    (AreaPulse.update w dt rate).currentPulseRadius = 0 ∧
    (AreaPulse.update w dt rate).previousPulseRadius = 0 := by
  unfold AreaPulse.update
  by_cases hcc : 0 < w.currentCooldown <;>
    simp [hcc, h, max_le_iff, hf]

theorem update_pulsing_live (w : AreaPulse) (dt rate : ℚ) (h : w.isPulsing = true)
    (hf : ¬ ((8 : ℚ) / 10 - (w.pulseAnimation + dt * 3) * 2 ≤ 0)) :
    (AreaPulse.update w dt rate).isPulsing = true ∧
    (AreaPulse.update w dt rate).pulseAnimation = w.pulseAnimation + dt * 3 ∧
    (AreaPulse.update w dt rate).currentPulseRadius =
      radiusOfAnim (w.pulseAnimation + dt * 3) ∧
    (AreaPulse.update w dt rate).previousPulseRadius = w.currentPulseRadius := by
  unfold AreaPulse.update
  by_cases hcc : 0 < w.currentCooldown <;>
    simp [hcc, h, max_le_iff, hf, radiusOfAnim]

/-! ## Claim theorems -/

/-- C2: a restart resets all game state: the player stats are replaced by the
default stats, the wave counter returns to 1, the XP counters return to 0 and
the level-1 requirement, and the live enemy set is replaced by the freshly
spawned wave.  `restart` is a single pure step executed between frames, so
each component the render loop can observe equals its fresh value — none
depends on the pre-restart state, which is the absence of a partial-reset
window. -/
theorem restart_resets_state (g : GameState) (newWave : List Enemy) :
    (Game.restart g newWave).playerStats = createDefaultStats ∧
    (Game.restart g newWave).currentWave = 1 ∧
    (Game.restart g newWave).progression.currentXP = 0 ∧
    (Game.restart g newWave).progression.xpToNextLevel = xpForLevel 1 ∧
    (Game.restart g newWave).progression.currentWave = 1 ∧
    (Game.restart g newWave).playerPos = { x := 0, y := 8 / 10, z := 0 } ∧
    (Game.restart g newWave).enemies = newWave ∧
    (Game.restart g newWave).isGameOver = false :=
  ⟨rfl, rfl, rfl, rfl, rfl, rfl, rfl, rfl⟩

/-- C5: `getEffectiveCooldown(attackRateMultiplier)` returns
`baseCooldown / attackRateMultiplier`, while a successful `attack` resets
`currentCooldown` to `baseCooldown` unconditionally — in particular the new
cooldown does not depend on the `damageMultiplier` argument or on any
attack-rate multiplier. -/
theorem effective_cooldown_and_attack_reset (w : AreaPulse) (m : ℚ) (origin : Vec3)
    (dm : ℚ) :
    AreaPulse.getEffectiveCooldown w m = w.baseCooldown / m ∧
    ((AreaPulse.attack w origin dm).1.success = true →
      (AreaPulse.attack w origin dm).2.currentCooldown = w.baseCooldown) := by
  refine ⟨rfl, fun hs => ?_⟩
  unfold AreaPulse.attack at hs ⊢
  by_cases hca : AreaPulse.canAttack w = false
  · rw [if_pos hca] at hs
    exact absurd hs (by simp)
  · rw [if_neg hca]

/-- C5 witness: at a ready weapon (`baseDamage = 25`, `baseCooldown = 1`,
cooldown elapsed), the effective cooldown at multiplier 2 is `1 / 2` and a
successful attack resets the stored cooldown to the base cooldown 1. -/
theorem effective_cooldown_and_attack_reset_witness :
    AreaPulse.getEffectiveCooldown (AreaPulse.init 25 1) 2 = (AreaPulse.init 25 1).baseCooldown / 2 ∧
    ((AreaPulse.attack (AreaPulse.init 25 1) { x := 0, y := 0, z := 0 } 3).1.success = true →
      (AreaPulse.attack (AreaPulse.init 25 1) { x := 0, y := 0, z := 0 } 3).2.currentCooldown =
        (AreaPulse.init 25 1).baseCooldown) :=
  effective_cooldown_and_attack_reset (AreaPulse.init 25 1) 2 { x := 0, y := 0, z := 0 } 3

/-- C9: an attack attempted while `currentCooldown > 0` returns the no-op
result (`success = false`, radius 0, damage 0) and leaves the entire weapon
state — cooldown, pulsing flag, both radii, pulse origin, pending damage —
unchanged. -/
theorem attack_on_cooldown_noop (w : AreaPulse) (origin : Vec3) (dm : ℚ)
    (h : 0 < w.currentCooldown) :
    (AreaPulse.attack w origin dm).1 =
      { origin := origin, radius := 0, damage := 0, success := false } ∧
    (AreaPulse.attack w origin dm).2 = w := by
  have hca : AreaPulse.canAttack w = false := by
    simp only [AreaPulse.canAttack, decide_eq_false_iff_not, not_le]
    exact h
  unfold AreaPulse.attack
  rw [if_pos hca]
  exact ⟨rfl, rfl⟩

/-- C9 witness: a weapon with half its cooldown remaining rejects the attack
with the no-op result and is unchanged. -/
theorem attack_on_cooldown_noop_witness :
    (AreaPulse.attack { AreaPulse.init 25 1 with currentCooldown := 1 / 2 }
        { x := 2, y := 0, z := 1 } 4).1 =
      { origin := { x := 2, y := 0, z := 1 }, radius := 0, damage := 0, success := false } ∧
    (AreaPulse.attack { AreaPulse.init 25 1 with currentCooldown := 1 / 2 }
        { x := 2, y := 0, z := 1 } 4).2 =
      { AreaPulse.init 25 1 with currentCooldown := 1 / 2 } :=
  attack_on_cooldown_noop { AreaPulse.init 25 1 with currentCooldown := 1 / 2 }
    { x := 2, y := 0, z := 1 } 4 (by norm_num)

/-- C6: along a pulse lifecycle the radius is non-decreasing and
`previousRadius` tracks the prior frame.  A successful `attack` establishes
the lifecycle invariant `pulseInv`; every `update` with `deltaTime ≥ 0`
preserves it; and while the pulse stays active across an update call the
current radius does not decrease and the new `previousRadius` equals the
prior frame's `currentRadius`. -/
theorem pulse_radius_monotone :
    (∀ (w : AreaPulse) (o : Vec3) (dm : ℚ),
        (AreaPulse.attack w o dm).1.success = true →
        pulseInv (AreaPulse.attack w o dm).2) ∧
    (∀ (w : AreaPulse) (dt rate : ℚ), 0 ≤ dt → pulseInv w →
        pulseInv (AreaPulse.update w dt rate)) ∧
    (∀ (w : AreaPulse) (dt rate : ℚ), 0 ≤ dt → pulseInv w →
        w.isPulsing = true → (AreaPulse.update w dt rate).isPulsing = true →
        w.currentPulseRadius ≤ (AreaPulse.update w dt rate).currentPulseRadius ∧
        (AreaPulse.update w dt rate).previousPulseRadius = w.currentPulseRadius) := by
  refine ⟨?_, ?_, ?_⟩
  · intro w o dm hs
    unfold AreaPulse.attack at hs ⊢
    by_cases hca : AreaPulse.canAttack w = false
    · rw [if_pos hca] at hs
      exact absurd hs (by simp)
    · rw [if_neg hca] at hs ⊢
      refine ⟨le_refl 0, fun _ => ?_⟩
      show (0 : ℚ) = radiusOfAnim 0
      norm_num [radiusOfAnim, AreaPulse.baseRadius]
  · intro w dt rate hdt hinv
    by_cases hp : w.isPulsing = true
    · by_cases hf : (8 : ℚ) / 10 - (w.pulseAnimation + dt * 3) * 2 ≤ 0
      · obtain ⟨hp', ha', _, _⟩ := update_pulsing_fade w dt rate hp hf
        exact ⟨by rw [ha']; nlinarith [hinv.1], fun hc => absurd hc (by rw [hp']; simp)⟩
      · obtain ⟨hp', ha', hc', _⟩ := update_pulsing_live w dt rate hp hf
        refine ⟨by rw [ha']; nlinarith [hinv.1], fun _ => ?_⟩
        rw [hc', ha']
    · have hp0 : w.isPulsing = false := by
        cases hb : w.isPulsing
        · rfl
        · exact absurd hb hp
      obtain ⟨hp', ha', _, _⟩ := update_not_pulsing w dt rate hp0
      exact ⟨by rw [ha']; exact hinv.1, fun hc => absurd hc (by rw [hp']; simp)⟩
  · intro w dt rate hdt hinv hp hp'
    by_cases hf : (8 : ℚ) / 10 - (w.pulseAnimation + dt * 3) * 2 ≤ 0
    · obtain ⟨hpf, _, _, _⟩ := update_pulsing_fade w dt rate hp hf
      rw [hpf] at hp'
      exact absurd hp' (by simp)
    · obtain ⟨_, _, hc', hprev⟩ := update_pulsing_live w dt rate hp hf
      refine ⟨?_, hprev⟩
      rw [hc', hinv.2 hp]
      exact radiusOfAnim_mono _ _ (by nlinarith)

/-- C6 witness: starting a pulse from a ready weapon and advancing one frame
of 0.1 s keeps the pulse active, grows the radius from 0 (to 3) and records
the prior radius 0 in `previousRadius`. -/
theorem pulse_radius_monotone_witness :
    (AreaPulse.attack (AreaPulse.init 25 1) { x := 0, y := 8 / 10, z := 0 } 1).2.currentPulseRadius ≤
      (AreaPulse.update (AreaPulse.attack (AreaPulse.init 25 1)
        { x := 0, y := 8 / 10, z := 0 } 1).2 (1 / 10) 1).currentPulseRadius ∧
    (AreaPulse.update (AreaPulse.attack (AreaPulse.init 25 1)
        { x := 0, y := 8 / 10, z := 0 } 1).2 (1 / 10) 1).previousPulseRadius =
      (AreaPulse.attack (AreaPulse.init 25 1) { x := 0, y := 8 / 10, z := 0 } 1).2.currentPulseRadius :=
  pulse_radius_monotone.2.2
    (AreaPulse.attack (AreaPulse.init 25 1) { x := 0, y := 8 / 10, z := 0 } 1).2
    (1 / 10) 1 (by norm_num)
    (pulse_radius_monotone.1 (AreaPulse.init 25 1) { x := 0, y := 8 / 10, z := 0 } 1
      (by norm_num [AreaPulse.attack, AreaPulse.canAttack, AreaPulse.init]))
    (by norm_num [AreaPulse.attack, AreaPulse.canAttack, AreaPulse.init])
    (by norm_num [AreaPulse.attack, AreaPulse.canAttack, AreaPulse.init, AreaPulse.update,
      AreaPulse.baseRadius])

/-- C1: for any enemy and any single pulse lifecycle — every sequence of
`processPulseHits` calls whose pulse snapshots are all active, starting from
any enemy array and any dedup-set contents — at most one DamageEvent is
reported for that enemy, no matter how many frames the ring covers its
position. -/
theorem pulse_hits_at_most_once_per_lifecycle (i : ℕ) (pss : List PulseState)
    (es : List Enemy) (hit : List ℕ) (hact : ∀ ps ∈ pss, ps.active = true) :
    CombatSystem.countHits i (CombatSystem.runPulse pss es hit).events ≤ 1 := by
  have h := runPulse_countHits_le i pss es hit hact
  split at h <;> omega

/-- C1 witness: an enemy sitting inside the ring for three consecutive active
frames of one pulse receives at most one DamageEvent. -/
theorem pulse_hits_at_most_once_per_lifecycle_witness :
    CombatSystem.countHits 4
      (CombatSystem.runPulse
        [{ active := true, origin := { x := 0, y := 8 / 10, z := 0 },
           previousRadius := 0, currentRadius := 1, damage := 25 },
         { active := true, origin := { x := 0, y := 8 / 10, z := 0 },
           previousRadius := 1, currentRadius := 2, damage := 25 },
         { active := true, origin := { x := 0, y := 8 / 10, z := 0 },
           previousRadius := 2, currentRadius := 3, damage := 25 }]
        [{ id := 4, pos := { x := 0, y := 3 / 5, z := 0 }, maxHealth := 50,
           currentHealth := 50, isAlive := true }] []).events ≤ 1 :=
  pulse_hits_at_most_once_per_lifecycle 4 _ _ []
    (by intro ps hps
        simp only [List.mem_cons, List.not_mem_nil, or_false] at hps
        rcases hps with h | h | h <;> subst h <;> rfl)

/-- C10: the per-pulse dedup set is cleared only by a `processPulseHits` call
whose pulse snapshot is inactive — an active call only grows it — and an
enemy already in the set receives no DamageEvent for an entire lifecycle of
active calls.  Consequently, in the call sequence that `attack` starts with
no intervening inactive `processPulseHits` call (last conjunct, concrete):
the attack succeeds, the new pulse is active, the enemy is alive and within
the new pulse's current radius, yet — being marked from the previous
pulse — it receives no DamageEvent from the new pulse. -/
theorem stale_hit_set_suppresses_new_pulse :
    (∀ (ps : PulseState) (es : List Enemy) (hit : List ℕ), ps.active = false →
      (CombatSystem.processPulseHits ps es hit).hitSet = [] ∧
      (CombatSystem.processPulseHits ps es hit).events = []) ∧
    (∀ (ps : PulseState) (es : List Enemy) (hit : List ℕ) (i : ℕ), ps.active = true →
      i ∈ hit → i ∈ (CombatSystem.processPulseHits ps es hit).hitSet) ∧
    (∀ (pss : List PulseState) (es : List Enemy) (hit : List ℕ) (i : ℕ),
      (∀ ps ∈ pss, ps.active = true) → i ∈ hit →
      CombatSystem.countHits i (CombatSystem.runPulse pss es hit).events = 0) ∧
    ((AreaPulse.attack (AreaPulse.init 25 1) { x := 0, y := 8 / 10, z := 0 } 1).1.success = true ∧
      (AreaPulse.getPulseState (AreaPulse.update
        (AreaPulse.attack (AreaPulse.init 25 1) { x := 0, y := 8 / 10, z := 0 } 1).2
        (1 / 10) 1)).active = true ∧
      withinRadius { x := 1, y := 3 / 5, z := 0 } { x := 0, y := 8 / 10, z := 0 }
        (AreaPulse.getPulseState (AreaPulse.update
          (AreaPulse.attack (AreaPulse.init 25 1) { x := 0, y := 8 / 10, z := 0 } 1).2
          (1 / 10) 1)).currentRadius = true ∧
      (CombatSystem.runPulse
        [AreaPulse.getPulseState (AreaPulse.update
          (AreaPulse.attack (AreaPulse.init 25 1) { x := 0, y := 8 / 10, z := 0 } 1).2
          (1 / 10) 1),
         AreaPulse.getPulseState (AreaPulse.update
          (AreaPulse.attack (AreaPulse.init 25 1) { x := 0, y := 8 / 10, z := 0 } 1).2
          (1 / 10) 1)]
        [{ id := 7, pos := { x := 1, y := 3 / 5, z := 0 }, maxHealth := 20,
           currentHealth := 20, isAlive := true }] [7]).events = []) := by
  refine ⟨?_, ?_, ?_, ?_⟩
  · intro ps es hit h
    constructor <;> simp [CombatSystem.processPulseHits, h]
  · intro ps es hit i hact hmem
    have : CombatSystem.processPulseHits ps es hit =
        CombatSystem.processPulseGo ps.origin ps.currentRadius ps.damage es hit := by
      simp [CombatSystem.processPulseHits, hact]
    rw [this]
    exact processPulseGo_hitSet_mono ps.origin ps.currentRadius ps.damage es hit hmem
  · intro pss es hit i hact hmem
    have h := runPulse_countHits_le i pss es hit hact
    rw [if_pos hmem] at h
    omega
  · norm_num [AreaPulse.attack, AreaPulse.init, AreaPulse.canAttack, AreaPulse.update,
      AreaPulse.getPulseState, AreaPulse.baseRadius, withinRadius, distSq,
      CombatSystem.runPulse, CombatSystem.processPulseHits, CombatSystem.processPulseGo]

/-- C10 witness: an enemy id already in the dedup set receives zero
DamageEvents across two active frames that cover its position. -/
theorem stale_hit_set_suppresses_new_pulse_witness :
    CombatSystem.countHits 7
      (CombatSystem.runPulse
        [{ active := true, origin := { x := 0, y := 8 / 10, z := 0 },
           previousRadius := 0, currentRadius := 3, damage := 25 },
         { active := true, origin := { x := 0, y := 8 / 10, z := 0 },
           previousRadius := 3, currentRadius := 3, damage := 25 }]
        [{ id := 7, pos := { x := 1, y := 3 / 5, z := 0 }, maxHealth := 20,
           currentHealth := 20, isAlive := true }] [7]).events = 0 :=
  stale_hit_set_suppresses_new_pulse.2.2.1 _ _ [7] 7
    (by intro ps hps
        simp only [List.mem_cons, List.not_mem_nil, or_false] at hps
        rcases hps with h | h <;> subst h <;> rfl)
    (List.mem_cons_self _ _)

/-- C3 counterexample: from the level-1 start (`xpToNextLevel = 100`,
`currentXP = 0`), a single `addXP` of 1000 triggers a level-up after which
`currentXP = 900` is NOT below the new requirement `xpToNextLevel = 150`:
the claimed bound `currentXP < xpToNextLevel(newLevel)` fails for awards
exceeding the current requirement, because a single call levels up at most
once. -/
theorem xp_carryover_upper_bound_fails :
    (ProgressionSystem.addXP (ProgressionSystem.init 1) createDefaultStats 1000).2.2.isSome
      = true ∧
    ¬ ((ProgressionSystem.addXP (ProgressionSystem.init 1) createDefaultStats 1000).1.currentXP <
        (ProgressionSystem.addXP (ProgressionSystem.init 1)
          createDefaultStats 1000).1.xpToNextLevel) := by
  norm_num [ProgressionSystem.addXP, ProgressionSystem.levelUp, ProgressionSystem.init,
    createDefaultStats, xpForLevel]

/-- C3 (amended): every `addXP` award that triggers a level-up conserves the
XP total (the new `currentXP` is exactly the old `currentXP + amount` minus
the consumed old requirement, so nothing is lost or duplicated) and leaves
`currentXP` nonnegative, with the new requirement recomputed as
`xpForLevel(level + 1)` — all unconditionally.  The upper bound
`currentXP < xpToNextLevel(newLevel)` additionally holds provided the
pre-award state has `currentXP < xpToNextLevel` with `xpToNextLevel` in sync
with the level (both maintained by the constructor and by every level-up)
and the award does not exceed the pre-award requirement; the oversized-award
counterexample above shows the bound cannot hold without these provisoes. -/
theorem xp_carryover (p : ProgressionState) (stats : PlayerStats) (amount : ℚ)
    (htrig : p.xpToNextLevel ≤ p.currentXP + amount) :
    (ProgressionSystem.addXP p stats amount).2.2.isSome = true ∧
    (ProgressionSystem.addXP p stats amount).1.currentXP =
      p.currentXP + amount - p.xpToNextLevel ∧
    0 ≤ (ProgressionSystem.addXP p stats amount).1.currentXP ∧
    (ProgressionSystem.addXP p stats amount).1.currentXP + p.xpToNextLevel =
      p.currentXP + amount ∧
    (ProgressionSystem.addXP p stats amount).1.xpToNextLevel =
      xpForLevel (stats.level + 1) ∧
    (p.currentXP < p.xpToNextLevel → amount ≤ p.xpToNextLevel →
      p.xpToNextLevel = xpForLevel stats.level →
      (ProgressionSystem.addXP p stats amount).1.currentXP <
        (ProgressionSystem.addXP p stats amount).1.xpToNextLevel) := by
  unfold ProgressionSystem.addXP
  rw [if_pos (by simpa using htrig)]
  refine ⟨rfl, rfl, ?_, ?_, rfl, ?_⟩
  · show (0 : ℚ) ≤ p.currentXP + amount - p.xpToNextLevel
    linarith
  · show p.currentXP + amount - p.xpToNextLevel + p.xpToNextLevel = p.currentXP + amount
    ring
  · intro hinv hbound hsync
    show p.currentXP + amount - p.xpToNextLevel < xpForLevel (stats.level + 1)
    have hmono := xpForLevel_le_succ stats.level
    rw [← hsync] at hmono
    linarith

/-- C3 witness: at 75/100 XP on level 1 an award of 25 triggers the
level-up; the carried XP 0 is nonnegative, conserved (0 + 100 = 75 + 25),
the new requirement is `xpForLevel 2`, and — as the provisoes hold here —
the carried XP is below the new requirement. -/
theorem xp_carryover_witness :
    (ProgressionSystem.addXP { currentXP := 75, xpToNextLevel := 100, currentWave := 1 }
        createDefaultStats 25).2.2.isSome = true ∧
    (ProgressionSystem.addXP { currentXP := 75, xpToNextLevel := 100, currentWave := 1 }
        createDefaultStats 25).1.currentXP = 75 + 25 - 100 ∧
    0 ≤ (ProgressionSystem.addXP { currentXP := 75, xpToNextLevel := 100, currentWave := 1 }
        createDefaultStats 25).1.currentXP ∧
    (ProgressionSystem.addXP { currentXP := 75, xpToNextLevel := 100, currentWave := 1 }
        createDefaultStats 25).1.currentXP + 100 = 75 + 25 ∧
    (ProgressionSystem.addXP { currentXP := 75, xpToNextLevel := 100, currentWave := 1 }
        createDefaultStats 25).1.xpToNextLevel = xpForLevel (createDefaultStats.level + 1) ∧
    ((75 : ℚ) < 100 → (25 : ℚ) ≤ 100 → (100 : ℚ) = xpForLevel createDefaultStats.level →
      (ProgressionSystem.addXP { currentXP := 75, xpToNextLevel := 100, currentWave := 1 }
          createDefaultStats 25).1.currentXP <
        (ProgressionSystem.addXP { currentXP := 75, xpToNextLevel := 100, currentWave := 1 }
            createDefaultStats 25).1.xpToNextLevel) :=
  xp_carryover { currentXP := 75, xpToNextLevel := 100, currentWave := 1 }
    createDefaultStats 25 (by norm_num)

/-- C4 counterexample: an active pulse at the player position (height 0.8)
with `currentRadius = 0.1`, and a living, not-yet-hit enemy at the same
ground point (enemy height 0.6): the ground-plane distance is 0, within the
radius, so the claim predicts a hit — but `processPulseHits` reports no
event, because the code measures the full 3-D `distanceTo` (0.2 > 0.1). -/
theorem pulse_hit_not_ground_plane :
    (0 : ℚ) ≤ (1 / 10 : ℚ) ∧
    groundDistSq { x := 0, y := 3 / 5, z := 0 } { x := 0, y := 8 / 10, z := 0 }
      ≤ (1 / 10 : ℚ) ^ 2 ∧
    (CombatSystem.processPulseHits
      { active := true, origin := { x := 0, y := 8 / 10, z := 0 },
        previousRadius := 0, currentRadius := 1 / 10, damage := 25 }
      [{ id := 0, pos := { x := 0, y := 3 / 5, z := 0 }, maxHealth := 20,
         currentHealth := 20, isAlive := true }] []).events = [] := by
  norm_num [groundDistSq, CombatSystem.processPulseHits, CombatSystem.processPulseGo,
    withinRadius, distSq]

/-- C4 (amended): for a living enemy not yet recorded as hit by the active
pulse, `processPulseHits` registers a hit exactly when the full 3-D
Euclidean distance (the height axis included: `distanceTo`) from the enemy
position to the pulse origin is at most `currentRadius` — equivalently,
`currentRadius` is nonnegative and the squared distance is at most its
square. -/
theorem pulse_hit_iff_full_distance_within (ps : PulseState) (e : Enemy) (hit : List ℕ)
    (hact : ps.active = true) (halive : e.isAlive = true) (hmem : e.id ∉ hit) :
    ((CombatSystem.processPulseHits ps [e] hit).events ≠ [] ↔
      withinRadius e.pos ps.origin ps.currentRadius = true) ∧
    ((CombatSystem.processPulseHits ps [e] hit).events ≠ [] ↔
      (0 ≤ ps.currentRadius ∧ distSq e.pos ps.origin ≤ ps.currentRadius ^ 2)) := by
  have hne : ¬ (e.isAlive = false) := by simp [halive]
  have hgo : CombatSystem.processPulseHits ps [e] hit =
      CombatSystem.processPulseGo ps.origin ps.currentRadius ps.damage [e] hit := by
    simp [CombatSystem.processPulseHits, hact]
  have hmain : (CombatSystem.processPulseHits ps [e] hit).events ≠ [] ↔
      withinRadius e.pos ps.origin ps.currentRadius = true := by
    rw [hgo]
    simp only [CombatSystem.processPulseGo, if_neg hne, if_neg hmem]
    by_cases hw : withinRadius e.pos ps.origin ps.currentRadius = true
    · rw [if_pos hw]
      simp [hw]
    · rw [if_neg hw]
      simp [hw, CombatSystem.processPulseGo]
  exact ⟨hmain, hmain.trans (withinRadius_iff e.pos ps.origin ps.currentRadius)⟩

/-- C4 witness: a live enemy at ground distance 1 (3-D distance √1.04) from
an active pulse of radius 3 is registered — both characterizations hold at
this concrete input. -/
theorem pulse_hit_iff_full_distance_within_witness :
    ((CombatSystem.processPulseHits
        { active := true, origin := { x := 0, y := 8 / 10, z := 0 },
          previousRadius := 0, currentRadius := 3, damage := 25 }
        [{ id := 5, pos := { x := 1, y := 3 / 5, z := 0 }, maxHealth := 20,
           currentHealth := 20, isAlive := true }] []).events ≠ [] ↔
      withinRadius { x := 1, y := 3 / 5, z := 0 } { x := 0, y := 8 / 10, z := 0 } 3 = true) ∧
    ((CombatSystem.processPulseHits
        { active := true, origin := { x := 0, y := 8 / 10, z := 0 },
          previousRadius := 0, currentRadius := 3, damage := 25 }
        [{ id := 5, pos := { x := 1, y := 3 / 5, z := 0 }, maxHealth := 20,
           currentHealth := 20, isAlive := true }] []).events ≠ [] ↔
      (0 ≤ (3 : ℚ) ∧
        distSq { x := 1, y := 3 / 5, z := 0 } { x := 0, y := 8 / 10, z := 0 } ≤ (3 : ℚ) ^ 2)) :=
  pulse_hit_iff_full_distance_within
    { active := true, origin := { x := 0, y := 8 / 10, z := 0 },
      previousRadius := 0, currentRadius := 3, damage := 25 }
    { id := 5, pos := { x := 1, y := 3 / 5, z := 0 }, maxHealth := 20,
      currentHealth := 20, isAlive := true }
    [] rfl rfl (by simp)

/-- C7: the kill-to-levelup scenario.  From the default stats (level 1,
requirement 100) four kill awards at wave 1 (25 XP each, awarded with
`enemyLevel = currentWave = 1` as the game loop does) produce no level-up on
the first three awards and exactly one on the fourth, leaving level 2,
`currentXP = 0`, `xpToNextLevel = 150`, damage multiplier +0.1, attack rate
+0.05, move speed +0.03, and health healed by 20% of max capped at max
(here: already full, so it stays 100). -/
theorem kill_to_levelup_scenario :
    killAward1.2.2 = none ∧ killAward2.2.2 = none ∧ killAward3.2.2 = none ∧
    killAward4.2.2 = some { newLevel := 2, damageInc := 1 / 10, attackRateInc := 1 / 20,
                            speedInc := 3 / 100 } ∧
    killAward4.1.currentXP = 0 ∧ killAward4.1.xpToNextLevel = 150 ∧
    killAward4.2.1.level = 2 ∧
    killAward4.2.1.damageMultiplier = createDefaultStats.damageMultiplier + 1 / 10 ∧
    killAward4.2.1.attackRate = createDefaultStats.attackRate + 1 / 20 ∧
    killAward4.2.1.moveSpeed = createDefaultStats.moveSpeed + 3 / 100 ∧
    killAward4.2.1.maxHealth = 100 ∧
    killAward4.2.1.currentHealth =
      min killAward4.2.1.maxHealth
        (createDefaultStats.currentHealth + createDefaultStats.maxHealth * (2 / 10)) ∧
    killAward4.2.1.currentHealth = 100 := by
  norm_num [killAward1, killAward2, killAward3, killAward4,
    ProgressionSystem.awardKillXP, ProgressionSystem.addXP,
    ProgressionSystem.levelUp, ProgressionSystem.init, ProgressionSystem.baseXPPerKill,
    ProgressionSystem.damagePerLevel, ProgressionSystem.attackRatePerLevel,
    ProgressionSystem.speedPerLevel, createDefaultStats, xpForLevel]

/-- C8: bounds containment.  An entity whose position lies within the arena
bounds still lies within them after any update call with the bounds
supplied (first conjunct: enemies, including dead ones that skip movement;
third conjunct: the player, including the standing-still branch); and a
living enemy is clamped into well-formed bounds on every update whatever its
chase/wander movement vector would do (second conjunct: no precondition on
the starting position). -/
theorem bounds_containment (b : ArenaBounds) (e : Enemy) (move : Vec3)
    (pos : Vec3) (input : ℚ × ℚ) (pmove : Vec3) :
    (inBounds b e.pos → inBounds b (Enemy.update e move b).pos) ∧
    (e.isAlive = true → b.minX ≤ b.maxX → b.minZ ≤ b.maxZ →
      inBounds b (Enemy.update e move b).pos) ∧
    (inBounds b pos → inBounds b (Player.update pos input pmove (some b))) := by
  refine ⟨?_, ?_, ?_⟩
  · intro hin
    unfold Enemy.update
    by_cases ha : e.isAlive = false
    · rw [if_pos ha]; exact hin
    · rw [if_neg ha]
      exact clampToBounds_inBounds b _ (hin.1.trans hin.2.1) (hin.2.2.1.trans hin.2.2.2)
  · intro ha hx hz
    unfold Enemy.update
    rw [if_neg (by simp [ha])]
    exact clampToBounds_inBounds b _ hx hz
  · intro hin
    unfold Player.update
    by_cases hm : input.1 ≠ 0 ∨ input.2 ≠ 0
    · rw [if_pos hm]
      exact clampToBounds_inBounds b _ (hin.1.trans hin.2.1) (hin.2.2.1.trans hin.2.2.2)
    · rw [if_neg hm]
      exact hin

/-- C8 witness: in the 24-by-24 arena bounds, an in-bounds living enemy
pushed by a movement vector of length far beyond the arena stays in bounds,
and so does the player. -/
theorem bounds_containment_witness :
    (inBounds { minX := -11, maxX := 11, minZ := -11, maxZ := 11 }
        ({ id := 0, pos := { x := 10, y := 3 / 5, z := 10 }, maxHealth := 20,
           currentHealth := 20, isAlive := true } : Enemy).pos →
      inBounds { minX := -11, maxX := 11, minZ := -11, maxZ := 11 }
        (Enemy.update
          { id := 0, pos := { x := 10, y := 3 / 5, z := 10 }, maxHealth := 20,
            currentHealth := 20, isAlive := true }
          { x := 100, y := 0, z := -300 }
          { minX := -11, maxX := 11, minZ := -11, maxZ := 11 }).pos) ∧
    (({ id := 0, pos := { x := 10, y := 3 / 5, z := 10 }, maxHealth := 20,
        currentHealth := 20, isAlive := true } : Enemy).isAlive = true →
      (-11 : ℚ) ≤ 11 → (-11 : ℚ) ≤ 11 →
      inBounds { minX := -11, maxX := 11, minZ := -11, maxZ := 11 }
        (Enemy.update
          { id := 0, pos := { x := 10, y := 3 / 5, z := 10 }, maxHealth := 20,
            currentHealth := 20, isAlive := true }
          { x := 100, y := 0, z := -300 }
          { minX := -11, maxX := 11, minZ := -11, maxZ := 11 }).pos) ∧
    (inBounds { minX := -11, maxX := 11, minZ := -11, maxZ := 11 }
        { x := 0, y := 8 / 10, z := 0 } →
      inBounds { minX := -11, maxX := 11, minZ := -11, maxZ := 11 }
        (Player.update { x := 0, y := 8 / 10, z := 0 } (1, 0) { x := 50, y := 0, z := 0 }
          (some { minX := -11, maxX := 11, minZ := -11, maxZ := 11 }))) :=
  bounds_containment { minX := -11, maxX := 11, minZ := -11, maxZ := 11 }
    { id := 0, pos := { x := 10, y := 3 / 5, z := 10 }, maxHealth := 20,
      currentHealth := 20, isAlive := true }
    { x := 100, y := 0, z := -300 } { x := 0, y := 8 / 10, z := 0 } (1, 0)
    { x := 50, y := 0, z := 0 }

end Verta
